import Mathlib

/-!
# Verification of panopticon-tui core state machines

Shallow embedding of the panopticon-tui dashboard core
(`src/ui/app.rs`, `src/main.rs`): rolling metric windows, the tree
builder/renderer for fiber dumps, list/tab navigation, the fetch-worker
loop and the controller's response/tick handlers.  Pure Rust methods
become Lean functions; methods that mutate `&mut self` become
state-to-state functions; Rust panics (index out of bounds, unwrap,
integer underflow in debug) are surfaced as `Option`/explicit wrap
arithmetic.
-/

set_option maxRecDepth 4000

namespace Panopticon

/-- Fiber status, from `zio::model::FiberStatus` (variants visible in
`ZMXTab::tick`'s match in `src/ui/app.rs`). -/
inductive FiberStatus where
  | Done
  | Finishing
  | Running
  | Suspended
deriving DecidableEq, Repr

/-- A fiber record: id, optional parent id, status, dump text
(fields visible in the `zmx_tab_dumps_fibers` test in `src/ui/app.rs`
and in the spec's data model). -/
structure Fiber where
  id : Nat
  parent_id : Option Nat
  status : FiberStatus
  dump : String
deriving DecidableEq, Repr

/-- Per-status fiber counts, from `zio::model::FiberCount`
(fields visible in `ZMXTab::tick` in `src/ui/app.rs`). -/
structure FiberCount where
  done : Nat
  suspended : Nat
  running : Nat
  finishing : Nat
deriving DecidableEq, Repr

/-- Slick pool metric sample. Modelled from the spec: the
`jmx_client::model::SlickMetrics` type is not under `src/`; the spec's
data model gives a pool metric sample the fields queue_size and
thread_count, with a distinguished all-zero value `SlickMetrics::ZERO`
(used in `SlickTab::initialize` in `src/ui/app.rs`). -/
structure SlickMetrics where
  queue_size : Nat
  thread_count : Nat
deriving DecidableEq, Repr

/-- The all-zero sample `SlickMetrics::ZERO` used to seed the window. -/
def SlickMetrics.ZERO : SlickMetrics := { queue_size := 0, thread_count := 0 }

/-- Slick pool configuration, fields visible at its construction site in
`App::connect_to_jmx` in `src/ui/app.rs`. -/
structure SlickConfig where
  max_queue_size : Nat
  max_threads : Nat
deriving DecidableEq, Repr

/-- Hikari pool metric sample. Modelled from the spec: the
`jmx_client::model::HikariMetrics` type is not under `src/`; the spec
describes it only as a sample of an optional secondary metric family, so
its payload is abstracted to one numeric field (no claim depends on the
fields). -/
structure HikariMetrics where
  value : Int
deriving DecidableEq, Repr

/-! ## Rolling windows

`ZMXTab::append_fiber_count`, `SlickTab::append_slick_metrics` and
`SlickTab::append_hikari_metrics` all follow the same pattern on a
`VecDeque`: if the current length already exceeds the max, pop the front
(oldest) element, then push the new sample at the back.  A `VecDeque`
with `push_back`/`pop_front` is embedded as a `List` whose head is the
oldest element. -/

/-- The common eviction-then-append step shared by the three `append_*`
methods: drop the oldest element exactly when the length before the
append already exceeds `maxSize`, then append. -/
def rollingPush {α : Type} (maxSize : Nat) (q : List α) (x : α) : List α :=
  (if q.length > maxSize then q.tail else q) ++ [x]

/-- `ZMXTab::MAX_FIBER_COUNT_MEASURES` -/
def MAX_FIBER_COUNT_MEASURES : Nat := 100
/-- `SlickTab::MAX_SLICK_MEASURES` -/
def MAX_SLICK_MEASURES : Nat := 25
/-- `SlickTab::MAX_HIKARI_MEASURES` -/
def MAX_HIKARI_MEASURES : Nat := 100

/-- Generic list-selection state `ListState<I>` from `src/ui/app.rs`. -/
structure ListState (I : Type) where
  items : List I
  selected : Nat
deriving DecidableEq, Repr

/-- The pure state of `ZMXTab` (`src/ui/app.rs`): the boxed network
client is I/O and is passed to the operations as an explicit fetched
value instead. -/
structure ZMXTab where
  fibers : ListState String
  selected_fiber_dump : String × Nat
  fiber_dump_all : List String
  scroll : Nat
  fiber_counts : List FiberCount
deriving DecidableEq, Repr

/-- `ZMXTab::append_fiber_count` from `src/ui/app.rs`. -/
def ZMXTab.append_fiber_count (t : ZMXTab) (c : FiberCount) : ZMXTab :=
  let fc := if t.fiber_counts.length > MAX_FIBER_COUNT_MEASURES
            then t.fiber_counts.tail else t.fiber_counts
  { t with fiber_counts := fc ++ [c] }

/-- The pure state of `SlickTab` (`src/ui/app.rs`): connection settings
and the live JMX client are dropped; fetched values are passed in. -/
structure SlickTab where
  has_hikari : Bool
  slick_error : Option String
  slick_metrics : List SlickMetrics
  slick_config : SlickConfig
  hikari_metrics : List HikariMetrics
deriving DecidableEq, Repr

/-- `SlickTab::append_slick_metrics` from `src/ui/app.rs`. -/
def SlickTab.append_slick_metrics (t : SlickTab) (m : SlickMetrics) : SlickTab :=
  let sm := if t.slick_metrics.length > MAX_SLICK_MEASURES
            then t.slick_metrics.tail else t.slick_metrics
  { t with slick_metrics := sm ++ [m] }

/-- `SlickTab::append_hikari_metrics` from `src/ui/app.rs`. -/
def SlickTab.append_hikari_metrics (t : SlickTab) (m : HikariMetrics) : SlickTab :=
  let hm := if t.hikari_metrics.length > MAX_HIKARI_MEASURES
            then t.hikari_metrics.tail else t.hikari_metrics
  { t with hikari_metrics := hm ++ [m] }

/-! ### Rolling-window lemmas -/

/-- One rolling push, restated as a drop from the front of the appended
list, valid whenever the window has not yet grown past `maxSize + 1`. -/
lemma rollingPush_eq_drop {α : Type} (m : Nat) (q : List α) (x : α)
    (h : q.length ≤ m + 1) :
    rollingPush m q x = (q ++ [x]).drop (q.length + 1 - (m + 1)) := by
  unfold rollingPush
  by_cases hgt : q.length > m
  · have h1 : q.length + 1 - (m + 1) = 1 := by omega
    rw [if_pos hgt, h1]
    cases q with
    | nil => simp at hgt
    | cons a as => simp
  · have h0 : q.length + 1 - (m + 1) = 0 := by omega
    rw [if_neg hgt, h0, List.drop_zero]

/-- Window length after a push never exceeds `maxSize + 1`. -/
lemma rollingPush_length_le {α : Type} (m : Nat) (q : List α) (x : α)
    (h : q.length ≤ m + 1) :
    (rollingPush m q x).length ≤ m + 1 := by
  unfold rollingPush
  by_cases hgt : q.length > m
  · rw [if_pos hgt]
    simp only [List.length_append, List.length_tail, List.length_cons,
      List.length_nil]
    omega
  · rw [if_neg hgt]
    simp only [List.length_append, List.length_cons, List.length_nil]
    omega

/-- Folding pushes over a window that respects the `maxSize + 1` bound
keeps exactly the most recent `maxSize + 1` of all samples seen, in
order. -/
lemma rollingPush_foldl {α : Type} (m : Nat) (xs : List α) :
    ∀ (q : List α), q.length ≤ m + 1 →
      xs.foldl (rollingPush m) q = (q ++ xs).drop ((q ++ xs).length - (m + 1)) := by
  induction xs with
  | nil =>
    intro q h
    simp only [List.foldl_nil, List.append_nil]
    have : q.length - (m + 1) = 0 := by omega
    rw [this, List.drop_zero]
  | cons x xs ih =>
    intro q h
    rw [List.foldl_cons, ih _ (rollingPush_length_le m q x h),
      rollingPush_eq_drop m q x h]
    have hd : q.length + 1 - (m + 1) ≤ (q ++ [x]).length := by
      simp only [List.length_append, List.length_cons, List.length_nil]
      omega
    rw [← List.drop_append_of_le_length hd, List.drop_drop]
    have harr : (q ++ [x]) ++ xs = q ++ x :: xs := by simp
    rw [harr]
    congr 1
    simp only [List.length_append, List.length_cons, List.length_nil,
      List.length_drop]
    omega

/-! ## Tree builder / renderer

Modelled from the spec: `formatter::printable_tree` lives in
`src/ui/formatter.rs`, which is not under `src/`; only its caller
`ZMXTab::dump_fibers` and the `zmx_tab_dumps_fibers` test are.  The
definitions below follow the spec's algorithm (§4.2): partition into
roots (parent absent or not in the input id set) and children grouped by
parent, preserving first-seen order; pre-order depth-first walk; per
level `"│ "`/`"  "` for ancestors with/without a pending later sibling
and `"├─"`/`"└─"` for the record itself; prefix plus `"#" + id` padded
to 13 cells, status label appended with no separator. -/

/-- Status label shown after the padded prefix. -/
def FiberStatus.label : FiberStatus → String
  | .Done => "Done"
  | .Finishing => "Finishing"
  | .Running => "Running"
  | .Suspended => "Suspended"

/-- The ids present in the input record list. -/
def idsOf (fd : List Fiber) : List Nat := fd.map (fun f => f.id)

/-- A record is a root when its parent is absent or names an id not
present in the input set. -/
def isRoot (fd : List Fiber) (f : Fiber) : Bool :=
  match f.parent_id with
  | none => true
  | some p => !((idsOf fd).contains p)

/-- Children of the record with id `p`, in first-seen input order. -/
def childrenOf (fd : List Fiber) (p : Nat) : List Fiber :=
  fd.filter (fun f => f.parent_id == some p)

/-- Tag each element of a list with whether it is the last one. -/
def markLast {α : Type} : List α → List (α × Bool)
  | [] => []
  | [a] => [(a, true)]
  | a :: b :: rest => (a, false) :: markLast (b :: rest)

/-- Right-pad a string with spaces to 13 character cells (the fixed
column where the status label starts). -/
def padTo13 (s : String) : String :=
  s ++ String.mk (List.replicate (13 - s.length) ' ')

/-- One rendered line: tree-art pfx, `"#" + id`, padding to 13 cells,
status label with no separator. -/
def renderLine (pfx : String) (f : Fiber) : String :=
  padTo13 (pfx ++ "#" ++ toString f.id) ++ f.status.label

/-- Pre-order depth-first walk of the forest.  `anc` is the accumulated
ancestor prefix; the fuel argument bounds recursion depth (the spec
leaves cyclic parent chains out of scope; `fd.length + 1` levels suffice
for every record reachable from a root). -/
def walkForest (fd : List Fiber) : Nat → String → List Fiber → List (String × Fiber)
  | 0, _, _ => []
  | fuel + 1, anc, ns =>
    (markLast ns).map (fun p =>
      (renderLine (anc ++ (if p.2 then "└─" else "├─")) p.1, p.1) ::
        walkForest fd fuel (anc ++ (if p.2 then "  " else "│ ")) (childrenOf fd p.1.id))
    |>.flatten

/-- `formatter::printable_tree`: the ordered (label, record) pairs of
the depth-first walk starting from the roots. -/
def printable_tree (fd : List Fiber) : List (String × Fiber) :=
  walkForest fd (fd.length + 1) "" (fd.filter (isRoot fd))

/-! ## ZMXTab operations (`src/ui/app.rs`) -/

/-- Rust `str::lines` on the underlying character list: split on `'\n'`,
except that a trailing newline does not produce a final empty line and
the empty string has no lines. -/
def rustLines (s : String) : List (List Char) :=
  let parts := s.data.splitOn '\n'
  if s.data = [] then []
  else if s.data.getLast? = some '\n' then parts.dropLast
  else parts

/-- `ZMXTab::prepare_dump`: the dump text paired with its line count
(a `u16` in the source, hence the wrap at `2^16`). -/
def ZMXTab.prepare_dump (s : String) : String × Nat :=
  (s, (rustLines s).length % 2 ^ 16)

/-- `ZMXTab::dump_fibers`, given the already-fetched record list (the
`zmx_client.dump_fibers()` call is I/O; its `Ok` payload is the
argument).  Returns `none` where the source panics: the unconditional
`fib_dumps[0]` read is out of bounds when the rendered list is empty. -/
def ZMXTab.dump_fibers (t : ZMXTab) (fd : List Fiber) : Option ZMXTab :=
  let list := (printable_tree fd).map (fun p => (p.1, p.2.dump))
  let fib_labels := list.map (fun f => f.1)
  let fib_dumps := list.map (fun f => f.2)
  match fib_dumps with
  | [] => none
  | d0 :: _ =>
    some { t with
      fibers := { items := fib_labels, selected := 0 },
      selected_fiber_dump := ZMXTab.prepare_dump d0,
      fiber_dump_all := fib_dumps }

/-- The three fixture records of the `zmx_tab_dumps_fibers` test. -/
def fixtureFibers : List Fiber :=
  [ { id := 1, parent_id := none, status := .Running, dump := "1" },
    { id := 2, parent_id := some 1, status := .Suspended, dump := "2" },
    { id := 4, parent_id := none, status := .Done, dump := "4" } ]

/-- The initial tab state of the `zmx_tab_dumps_fibers` test. -/
def fixtureTab : ZMXTab :=
  { fibers := { items := ["Fiber #1"], selected := 0 },
    selected_fiber_dump := ("", 0),
    fiber_dump_all := [],
    scroll := 0,
    fiber_counts := [] }

/-! ## List navigation (`ListState` in `src/ui/app.rs`)

`select_next` compares against `self.items.len() - 1`, a `usize`
subtraction: on an empty list it underflows.  A release build wraps to
`2^64 - 1` (a debug build panics on the same input), so the embedding
uses explicit wrap-around arithmetic at `2^64`. -/

/-- The `usize` modulus. -/
def USIZE : Nat := 2 ^ 64

/-- `ListState::select_previous`. -/
def ListState.select_previous {I : Type} (s : ListState I) : ListState I :=
  if s.selected > 0 then { s with selected := s.selected - 1 } else s

/-- `ListState::select_next`: the `items.len() - 1` bound is wrapping
`usize` subtraction. -/
def ListState.select_next {I : Type} (s : ListState I) : ListState I :=
  if s.selected < (s.items.length + (USIZE - 1)) % USIZE then
    { s with selected := (s.selected + 1) % USIZE }
  else s

/-- `ZMXTab::on_fiber_change`: re-reads `fiber_dump_all[n]` at the
selected index (`none` where that read panics out of bounds) and resets
the scroll. -/
def ZMXTab.on_fiber_change (t : ZMXTab) : Option ZMXTab :=
  match t.fiber_dump_all.get? t.fibers.selected with
  | none => none
  | some d =>
    some { t with selected_fiber_dump := ZMXTab.prepare_dump d, scroll := 0 }

/-- `ZMXTab::select_prev_fiber`. -/
def ZMXTab.select_prev_fiber (t : ZMXTab) : Option ZMXTab :=
  ZMXTab.on_fiber_change { t with fibers := t.fibers.select_previous }

/-- `ZMXTab::select_next_fiber`. -/
def ZMXTab.select_next_fiber (t : ZMXTab) : Option ZMXTab :=
  ZMXTab.on_fiber_change { t with fibers := t.fibers.select_next }

/-! ## SlickTab initialization (`src/ui/app.rs`) -/

/-- The fixed diagnostic recorded when fetching the Slick config fails. -/
def slickErrorMessage : String :=
  "No slick jmx metrics found. Are you sure you have registerMbeans=true in your slick config?"

/-- `SlickTab::initialize`, given the already-fetched results of
`get_slick_config`, `get_slick_metrics` and `get_hikari_metrics` (all
I/O on the JMX client).  In the success branch the source `unwrap`s the
metrics fetch, so a failed metrics fetch there is a panic (`none`).  In
both branches `has_hikari` is then set from the probe result. -/
def SlickTab.initSlick (t : SlickTab) (cfg : Except String SlickConfig)
    (dynData : Except String SlickMetrics)
    (hikari : Except String HikariMetrics) : Option SlickTab :=
  match cfg with
  | .ok config =>
    match dynData with
    | .error _ => none
    | .ok dyn =>
      let t1 := { t with
        slick_error := none,
        slick_config := config,
        slick_metrics := List.replicate MAX_SLICK_MEASURES SlickMetrics.ZERO }
      let t2 := t1.append_slick_metrics dyn
      some { t2 with has_hikari := hikari.isOk }
  | .error _ =>
    some { t with
      slick_error := some slickErrorMessage,
      has_hikari := hikari.isOk }

/-! ## Tabs (`TabsState` in `src/ui/app.rs`) -/

/-- Tab kinds from `src/ui/app.rs`. -/
inductive TabKind where
  | ZMX
  | Slick
deriving DecidableEq, Repr

/-- A tab: kind and title. -/
structure Tab where
  kind : TabKind
  title : String
deriving DecidableEq, Repr

/-- `TabsState`: the fixed tab list and the active index. -/
structure TabsState where
  tabs : List Tab
  index : Nat
deriving DecidableEq, Repr

/-- `TabsState::next`: `(index + 1) % tabs.len()`.  (On an empty tab
list the source `%` panics on division by zero; the tab set is non-empty
whenever the app launches, and the theorems below assume it.) -/
def TabsState.next (s : TabsState) : TabsState :=
  { s with index := (s.index + 1) % s.tabs.length }

/-- `TabsState::previous`: step back, wrapping from 0 to
`tabs.len() - 1`. -/
def TabsState.previous (s : TabsState) : TabsState :=
  if s.index > 0 then { s with index := s.index - 1 }
  else { s with index := s.tabs.length - 1 }

/-! ## Fetch worker (`src/main.rs`, fetcher thread)

The `Fetcher` type itself (crate module `fetcher`) is not under `src/`.
Modelled from the spec: each Data Source Port operation is synchronous
and either returns data or fails, so a `Fetcher` is embedded as the
record of results its port operations return for the current request;
the worker loop that consumes requests and produces responses is
`src/main.rs` lines 150–180 verbatim. -/

/-- `FetcherRequest` variants, as matched in the `src/main.rs` worker
loop. -/
inductive FetcherRequest where
  | FiberDump
  | RegularFiberDump
  | HikariMetrics
  | SlickMetrics
  | SlickConfig
  | ActorTree
  | ActorCount
deriving DecidableEq, Repr

/-- `FetcherResponse` variants, as produced in the `src/main.rs` worker
loop and consumed by the controller's response handler. -/
inductive FetcherResponse where
  | FatalFailure (e : String)
  | FiberDump (d : Except String (List Fiber))
  | RegularFiberDump (d : Except String (List Fiber))
  | HikariMetrics (d : Except String Panopticon.HikariMetrics)
  | SlickMetrics (d : Except String Panopticon.SlickMetrics)
  | SlickConfig (d : Except String Panopticon.SlickConfig)
  | ActorTree (d : Except String (List String))
  | ActorCount (d : Except String Nat)
deriving Repr

/-- Modelled from the spec: the port results a constructed `Fetcher`
returns, one per Data Source Port operation. -/
structure Fetcher where
  dump_fibers : Except String (List Fiber)
  get_hikari_metrics : Except String HikariMetrics
  get_slick_metrics : Except String SlickMetrics
  get_slick_config : Except String SlickConfig
  get_actor_tree : Except String (List String)
  get_actor_count : Except String Nat
deriving Repr

/-- One iteration of the fetcher-thread loop in `src/main.rs`:
`ctor` is the result of `Fetcher::new`.  If construction failed, every
request — of any kind — is answered with `FatalFailure` carrying the
original construction error; otherwise the request is dispatched to the
matching port operation. -/
def fetcherWorkerStep (ctor : Except String Fetcher)
    (req : FetcherRequest) : FetcherResponse :=
  match ctor with
  | .error e => .FatalFailure e
  | .ok f =>
    match req with
    | .FiberDump => .FiberDump f.dump_fibers
    | .RegularFiberDump => .RegularFiberDump f.dump_fibers
    | .HikariMetrics => .HikariMetrics f.get_hikari_metrics
    | .SlickMetrics => .SlickMetrics f.get_slick_metrics
    | .SlickConfig => .SlickConfig f.get_slick_config
    | .ActorTree => .ActorTree f.get_actor_tree
    | .ActorCount => .ActorCount f.get_actor_count

/-- The worker run on a whole request sequence: one response per
request, in order (the loop blocks on `recv` and answers each request
exactly once). -/
def runFetcherWorker (ctor : Except String Fetcher)
    (reqs : List FetcherRequest) : List FetcherResponse :=
  reqs.map (fetcherWorkerStep ctor)

/-! ## Controller state and handlers (`src/main.rs`) -/

/-- The controller-visible app state: quit flag, recorded exit message,
and one optional monitor state per configured source (fields as used by
the `src/main.rs` event loop; the actor monitor's own state is not
needed by any claim, only whether it is configured). -/
structure App where
  should_quit : Bool
  exit_reason : Option String
  zmx : Option ZMXTab
  slick : Option SlickTab
  has_actor_tree : Bool
deriving DecidableEq, Repr

/-- The `FetcherResponse::HikariMetrics` arm of the `src/main.rs`
response handler: on failure only the availability flag is cleared; on
success the flag is set and the sample appended.  `none` where the
source's `app.slick.as_mut().unwrap()` panics (no Slick tab). -/
def App.handleHikariResponse (a : App)
    (d : Except String HikariMetrics) : Option App :=
  match a.slick with
  | none => none
  | some s =>
    match d with
    | .error _ => some { a with slick := some { s with has_hikari := false } }
    | .ok x =>
      some { a with
        slick := some (SlickTab.append_hikari_metrics { s with has_hikari := true } x) }

/-- The `Event::Tick` arm of the `src/main.rs` event loop: the requests
enqueued on one timer tick, in order. -/
def App.tickRequests (a : App) : List FetcherRequest :=
  (if a.zmx.isSome then [FetcherRequest.RegularFiberDump] else []) ++
  (match a.slick with
   | some s =>
     [FetcherRequest.SlickMetrics] ++
       (if s.has_hikari then [FetcherRequest.HikariMetrics] else [])
   | none => []) ++
  (if a.has_actor_tree then [FetcherRequest.ActorCount] else [])

/-! ## Shared helper lemmas -/

/-- `markLast` of a non-empty list starts with its head. -/
lemma markLast_cons {α : Type} (a : α) (l : List α) :
    ∃ (b : Bool) (m : List (α × Bool)), markLast (a :: l) = (a, b) :: m := by
  cases l with
  | nil => exact ⟨true, [], rfl⟩
  | cons c cs => exact ⟨false, markLast (c :: cs), rfl⟩

/-- A record list with at least one root renders at least one line. -/
lemma printable_tree_ne_nil (fd : List Fiber)
    (h : fd.filter (isRoot fd) ≠ []) : printable_tree fd ≠ [] := by
  unfold printable_tree
  obtain ⟨r, rs, hr⟩ := List.exists_cons_of_ne_nil h
  rw [hr]
  simp only [walkForest]
  obtain ⟨b, m, hm⟩ := markLast_cons r rs
  rw [hm]
  simp

/-! ## Claims -/

/-- C1: on the fixture records {id 1, no parent, Running},
{id 2, parent 1, Suspended}, {id 4, no parent, Done}, in that order, the
tree builder/renderer produces exactly the three expected lines in that
order, each line being the tree-art prefix plus `"#" + id` padded to
exactly 13 character cells with the status label appended immediately
after with no separator, and the depth-first dump order is
["1", "2", "4"]. -/
theorem C1_tree_fixture :
    (ZMXTab.dump_fibers fixtureTab fixtureFibers).map
        (fun t => (t.fibers.items, t.fiber_dump_all))
      = some (["├─#1         Running", "│ └─#2       Suspended",
               "└─#4         Done"],
              ["1", "2", "4"]) ∧
    "├─#1         Running" = padTo13 ("├─" ++ "#1") ++ FiberStatus.Running.label ∧
    "│ └─#2       Suspended" = padTo13 ("│ └─" ++ "#2") ++ FiberStatus.Suspended.label ∧
    "└─#4         Done" = padTo13 ("└─" ++ "#4") ++ FiberStatus.Done.label ∧
    (padTo13 ("├─" ++ "#1")).length = 13 ∧
    (padTo13 ("│ └─" ++ "#2")).length = 13 ∧
    (padTo13 ("└─" ++ "#4")).length = 13 := by
  refine ⟨?_, ?_, ?_, ?_, ?_, ?_, ?_⟩ <;> decide

/-- C2: a rolling-window push drops the oldest element before appending
exactly when the length before the append already exceeds `max_size`
(this is the shared shape of `ZMXTab::append_fiber_count` and
`SlickTab::append_slick_metrics`); consequently, starting empty, after
`max_size + 2` pushes the length is `max_size + 1` and the retained
elements are the most recent `max_size + 1` samples in insertion order,
oldest first. -/
theorem C2_rolling_window {α : Type} (m : Nat) :
    (∀ (q : List α) (x : α),
       (q.length > m → rollingPush m q x = q.tail ++ [x]) ∧
       (q.length ≤ m → rollingPush m q x = q ++ [x])) ∧
    (∀ (t : ZMXTab) (c : FiberCount),
       (t.append_fiber_count c).fiber_counts
         = rollingPush MAX_FIBER_COUNT_MEASURES t.fiber_counts c) ∧
    (∀ (t : SlickTab) (s : SlickMetrics),
       (t.append_slick_metrics s).slick_metrics
         = rollingPush MAX_SLICK_MEASURES t.slick_metrics s) ∧
    (∀ (xs : List α), xs.length = m + 2 →
       (xs.foldl (rollingPush m) []).length = m + 1 ∧
       xs.foldl (rollingPush m) [] = xs.drop 1) := by
  refine ⟨?_, ?_, ?_, ?_⟩
  · intro q x
    constructor
    · intro hgt
      unfold rollingPush
      rw [if_pos hgt]
    · intro hle
      unfold rollingPush
      rw [if_neg (by omega)]
  · intro t c; rfl
  · intro t s; rfl
  · intro xs hlen
    have h := rollingPush_foldl m xs [] (by simp)
    simp only [List.nil_append] at h
    rw [h, hlen]
    constructor
    · simp only [List.length_drop, hlen]
      omega
    · congr 1
      omega

/-- C2 witness: with capacity 1, pushing three samples retains the most
recent two, oldest first. -/
theorem C2_rolling_window_witness :
    ([10, 20, 30] : List Nat).foldl (rollingPush 1) [] = [20, 30] := by
  have h := (C2_rolling_window (α := Nat) 1).2.2.2 [10, 20, 30] (by decide)
  rw [h.2]
  decide

/-- C3: if construction of the fetch worker fails, every subsequent
request of any kind receives exactly one fatal-failure response carrying
the original construction error — one response per request (nothing is
dropped), and the construction result is never re-attempted (the same
error is carried forever). -/
theorem C3_degraded_worker (e : String) (ctor : Except String Fetcher)
    (h : ctor = Except.error e) (reqs : List FetcherRequest) :
    runFetcherWorker ctor reqs
      = reqs.map (fun _ => FetcherResponse.FatalFailure e) ∧
    (runFetcherWorker ctor reqs).length = reqs.length ∧
    ∀ r ∈ runFetcherWorker ctor reqs, r = FetcherResponse.FatalFailure e := by
  subst h
  refine ⟨rfl, by simp [runFetcherWorker], ?_⟩
  intro r hr
  simp only [runFetcherWorker, List.mem_map] at hr
  obtain ⟨req, _, hreq⟩ := hr
  rw [← hreq]
  rfl

/-- C3 witness: a worker whose construction failed with "boom" answers
three different request kinds with the same fatal failure. -/
theorem C3_degraded_worker_witness :
    runFetcherWorker (Except.error "boom")
        [FetcherRequest.FiberDump, FetcherRequest.SlickMetrics,
         FetcherRequest.ActorCount]
      = [FetcherResponse.FatalFailure "boom", FetcherResponse.FatalFailure "boom",
         FetcherResponse.FatalFailure "boom"] :=
  (C3_degraded_worker "boom" _ rfl
    [FetcherRequest.FiberDump, FetcherRequest.SlickMetrics,
     FetcherRequest.ActorCount]).1

/-- C4 (code bug): on the empty list the clamping bound
`items.len() - 1` underflows, so `select_next` moves the selection from
0 to 1 instead of being a no-op — and `ZMXTab::select_next_fiber` on a
tab with no fibers then panics reading `fiber_dump_all[1]` (`none`
here). -/
theorem C4_select_next_empty_divergence :
    (ListState.select_next { items := ([] : List String), selected := 0 }).selected
      = 1 ∧
    ZMXTab.select_next_fiber
      { fibers := { items := [], selected := 0 },
        selected_fiber_dump := ("", 0),
        fiber_dump_all := [],
        scroll := 0,
        fiber_counts := [] } = none := by
  constructor
  · rfl
  · rfl

/-- C5 counterexample: handling a successful full dump does not reset
the scroll offset — starting from scroll 5, the scroll is still 5 after
`dump_fibers`. -/
theorem C5_scroll_not_reset_cex :
    (ZMXTab.dump_fibers { fixtureTab with scroll := 5 } fixtureFibers).map
        (fun t => t.scroll) = some 5 ∧
    (ZMXTab.dump_fibers { fixtureTab with scroll := 5 } fixtureFibers).map
        (fun t => t.scroll) ≠ some 0 := by
  constructor
  · decide
  · decide

/-- C5 (amended): every successful full-dump response replaces the
monitor's tree — rendered labels and backing dump texts — with the one
built from the response and resets the selection index to the first
item; the scroll offset is left unchanged. -/
theorem C5_dump_replaces_tree_resets_selection (t : ZMXTab) (fd : List Fiber)
    (t' : ZMXTab) (h : ZMXTab.dump_fibers t fd = some t') :
    t'.fibers.items = (printable_tree fd).map (fun p => p.1) ∧
    t'.fiber_dump_all = (printable_tree fd).map (fun p => p.2.dump) ∧
    t'.fibers.selected = 0 ∧
    t'.scroll = t.scroll := by
  unfold ZMXTab.dump_fibers at h
  cases hpt : printable_tree fd with
  | nil => rw [hpt] at h; simp at h
  | cons p ps =>
    rw [hpt] at h
    simp only [List.map_cons] at h
    injection h with h
    rw [← h]
    simp [List.map_map]

/-- The tab state produced by the C1 fixture dump, used to witness the
amended C5. -/
def expectedC5 : ZMXTab :=
  { fibers :=
      { items := ["├─#1         Running", "│ └─#2       Suspended",
                  "└─#4         Done"],
        selected := 0 },
    selected_fiber_dump := ("1", 1),
    fiber_dump_all := ["1", "2", "4"],
    scroll := 0,
    fiber_counts := [] }

/-- C5 witness: the amended statement instantiated on the fixture. -/
theorem C5_dump_replaces_tree_resets_selection_witness :
    expectedC5.fibers.items = (printable_tree fixtureFibers).map (fun p => p.1) ∧
    expectedC5.fiber_dump_all
      = (printable_tree fixtureFibers).map (fun p => p.2.dump) ∧
    expectedC5.fibers.selected = 0 ∧
    expectedC5.scroll = fixtureTab.scroll :=
  C5_dump_replaces_tree_resets_selection fixtureTab fixtureFibers expectedC5
    (by decide)

/-- C6: pool-monitor initialization — if the config fetch fails, the
fixed diagnostic is recorded and the metrics window is left untouched;
if it succeeds, the window is seeded with exactly `MAX_SLICK_MEASURES`
zero samples followed by the first real sample, so it holds
`MAX_SLICK_MEASURES + 1` samples immediately. -/
theorem C6_slick_initialization :
    (∀ (t : SlickTab) (e : String) (dynData : Except String SlickMetrics)
       (hik : Except String HikariMetrics),
       SlickTab.initSlick t (Except.error e) dynData hik
         = some { t with slick_error := some slickErrorMessage,
                         has_hikari := hik.isOk }) ∧
    (∀ (t : SlickTab) (cfg : SlickConfig) (d : SlickMetrics)
       (hik : Except String HikariMetrics),
       ∃ t', SlickTab.initSlick t (Except.ok cfg) (Except.ok d) hik = some t' ∧
         t'.slick_metrics
           = List.replicate MAX_SLICK_MEASURES SlickMetrics.ZERO ++ [d] ∧
         t'.slick_metrics.length = MAX_SLICK_MEASURES + 1 ∧
         t'.slick_error = none ∧
         t'.slick_config = cfg) := by
  constructor
  · intro t e dynData hik
    rfl
  · intro t cfg d hik
    refine ⟨_, rfl, ?_, ?_, rfl, rfl⟩
    · simp [SlickTab.append_slick_metrics, MAX_SLICK_MEASURES]
    · simp [SlickTab.append_slick_metrics, MAX_SLICK_MEASURES]

/-- C7: a failed fetch of the optional Hikari metric family only clears
its availability flag (nothing else changes, no crash); while the flag
is false a timer tick does not enqueue a Hikari request; and a later
successful response sets the flag back to true. -/
theorem C7_hikari_failure_handling :
    (∀ (a : App) (s : SlickTab) (e : String), a.slick = some s →
       App.handleHikariResponse a (Except.error e)
         = some { a with slick := some { s with has_hikari := false } }) ∧
    (∀ (a : App) (s : SlickTab), a.slick = some s → s.has_hikari = false →
       FetcherRequest.HikariMetrics ∉ a.tickRequests) ∧
    (∀ (a : App) (s : SlickTab) (x : HikariMetrics), a.slick = some s →
       ∃ s', App.handleHikariResponse a (Except.ok x)
               = some { a with slick := some s' } ∧
             s'.has_hikari = true) := by
  refine ⟨?_, ?_, ?_⟩
  · intro a s e hs
    simp [App.handleHikariResponse, hs]
  · intro a s hs hh
    simp only [App.tickRequests, hs, hh]
    cases hz : a.zmx.isSome <;> cases ha : a.has_actor_tree <;> simp
  · intro a s x hs
    refine ⟨SlickTab.append_hikari_metrics { s with has_hikari := true } x, ?_, ?_⟩
    · simp [App.handleHikariResponse, hs]
    · simp [SlickTab.append_hikari_metrics]

/-- Concrete Slick state used to witness C7. -/
def witnessSlick : SlickTab :=
  { has_hikari := false, slick_error := none, slick_metrics := [],
    slick_config := { max_queue_size := 0, max_threads := 0 },
    hikari_metrics := [] }

/-- Concrete app state used to witness C7. -/
def witnessApp : App :=
  { should_quit := false, exit_reason := none, zmx := none,
    slick := some witnessSlick, has_actor_tree := false }

/-- C7 witness: on a concrete app, a failed Hikari fetch clears only the
flag, and no Hikari request is enqueued while the flag is down. -/
theorem C7_hikari_failure_handling_witness :
    App.handleHikariResponse witnessApp (Except.error "down")
      = some { witnessApp with
               slick := some { witnessSlick with has_hikari := false } } ∧
    FetcherRequest.HikariMetrics ∉ witnessApp.tickRequests :=
  ⟨C7_hikari_failure_handling.1 witnessApp witnessSlick "down" rfl,
   C7_hikari_failure_handling.2.1 witnessApp witnessSlick rfl rfl⟩

/-- C8: for every non-empty tab list, "next" from the last tab wraps to
the first, "previous" from the first wraps to the last, and for every
in-range index "next" and "previous" are mutually inverse. -/
theorem C8_tab_wraparound (ts : TabsState) (h : ts.tabs ≠ []) :
    (ts.index = ts.tabs.length - 1 → ts.next.index = 0) ∧
    (ts.index = 0 → ts.previous.index = ts.tabs.length - 1) ∧
    (ts.index < ts.tabs.length → ts.next.previous = ts ∧ ts.previous.next = ts) := by
  obtain ⟨tabs, i⟩ := ts
  have hn : 0 < tabs.length := List.length_pos.mpr h
  refine ⟨?_, ?_, ?_⟩
  · intro hi
    have hi' : i = tabs.length - 1 := hi
    show (i + 1) % tabs.length = 0
    rw [hi', Nat.sub_add_cancel hn, Nat.mod_self]
  · intro hi
    have hi' : i = 0 := hi
    show (TabsState.previous ⟨tabs, i⟩).index = tabs.length - 1
    rw [hi']
    rfl
  · intro hi
    have hi' : i < tabs.length := hi
    constructor
    · show TabsState.previous ⟨tabs, (i + 1) % tabs.length⟩ = (⟨tabs, i⟩ : TabsState)
      unfold TabsState.previous
      by_cases hlt : i + 1 < tabs.length
      · rw [Nat.mod_eq_of_lt hlt, if_pos (Nat.succ_pos i)]
        simp
      · have hEq : i + 1 = tabs.length := by omega
        rw [hEq, Nat.mod_self, if_neg (by simp)]
        simp only [TabsState.mk.injEq, true_and]
        omega
    · show TabsState.next (TabsState.previous ⟨tabs, i⟩) = (⟨tabs, i⟩ : TabsState)
      unfold TabsState.previous
      by_cases hpos : i > 0
      · rw [if_pos hpos]
        show (⟨tabs, (i - 1 + 1) % tabs.length⟩ : TabsState) = ⟨tabs, i⟩
        rw [Nat.sub_add_cancel hpos, Nat.mod_eq_of_lt hi']
      · rw [if_neg hpos]
        show (⟨tabs, (tabs.length - 1 + 1) % tabs.length⟩ : TabsState) = ⟨tabs, i⟩
        rw [Nat.sub_add_cancel hn, Nat.mod_self]
        have h0 : i = 0 := by omega
        rw [h0]

/-- C8 witness: wrap-around and inverse laws on a concrete two-tab
state. -/
theorem C8_tab_wraparound_witness :
    ({ tabs := [{ kind := TabKind.ZMX, title := "ZMX" },
                { kind := TabKind.Slick, title := "Slick" }],
       index := 1 } : TabsState).next.index = 0 ∧
    ({ tabs := [{ kind := TabKind.ZMX, title := "ZMX" },
                { kind := TabKind.Slick, title := "Slick" }],
       index := 1 } : TabsState).next.previous
      = { tabs := [{ kind := TabKind.ZMX, title := "ZMX" },
                   { kind := TabKind.Slick, title := "Slick" }],
          index := 1 } := by
  have h := C8_tab_wraparound
    { tabs := [{ kind := TabKind.ZMX, title := "ZMX" },
               { kind := TabKind.Slick, title := "Slick" }],
      index := 1 } (by decide)
  exact ⟨h.1 (by decide), (h.2.2 (by decide)).1⟩

/-- C9: the tree builder is deterministic — re-rendering the same flat
record list yields identical output, and the dump operation's rendered
labels, backing dumps and selection depend only on the fetched list,
never on prior monitor state. -/
theorem C9_tree_builder_deterministic (t1 t2 : ZMXTab) (fd : List Fiber) :
    printable_tree fd = printable_tree fd ∧
    (ZMXTab.dump_fibers t1 fd).map
        (fun t => (t.fibers.items, t.fiber_dump_all, t.fibers.selected))
      = (ZMXTab.dump_fibers t2 fd).map
          (fun t => (t.fibers.items, t.fiber_dump_all, t.fibers.selected)) := by
  refine ⟨rfl, ?_⟩
  unfold ZMXTab.dump_fibers
  cases hpt : printable_tree fd with
  | nil => rfl
  | cons p ps => simp

/-- C10 counterexample: a non-empty record list in which every record's
parent chain is cyclic renders no lines, so the unconditional
`fib_dumps[0]` read is out of bounds even though the fetched list is
non-empty. -/
def cyclicFibers : List Fiber :=
  [ { id := 1, parent_id := some 2, status := .Running, dump := "1" },
    { id := 2, parent_id := some 1, status := .Suspended, dump := "2" } ]

/-- C10 counterexample theorem: `dump_fibers` hits the out-of-bounds
branch on a non-empty cyclic input. -/
theorem C10_cyclic_nonempty_cex :
    cyclicFibers ≠ [] ∧
    ZMXTab.dump_fibers fixtureTab cyclicFibers = none := by
  constructor
  · decide
  · decide

/-- C10 (amended): `dump_fibers` unconditionally reads element 0 of the
rendered dump vector, so on an empty fetched list the out-of-bounds
branch is reached; for every fetched list with at least one root record
(parent absent or dangling — in particular every acyclic non-empty
list) it completes and sets the selection to the first item. -/
theorem C10_dump_fibers_first_index (t : ZMXTab) :
    ZMXTab.dump_fibers t [] = none ∧
    ∀ (fd : List Fiber), fd.filter (isRoot fd) ≠ [] →
      ∃ t', ZMXTab.dump_fibers t fd = some t' ∧ t'.fibers.selected = 0 := by
  constructor
  · rfl
  · intro fd hroot
    have hne := printable_tree_ne_nil fd hroot
    obtain ⟨p, ps, hp⟩ := List.exists_cons_of_ne_nil hne
    simp only [ZMXTab.dump_fibers, hp, List.map_cons]
    exact ⟨_, rfl, rfl⟩

/-- C10 witness: on the fixture list (which has roots) the dump
completes with the selection on the first item. -/
theorem C10_dump_fibers_first_index_witness :
    ZMXTab.dump_fibers fixtureTab [] = none ∧
    ∃ t', ZMXTab.dump_fibers fixtureTab fixtureFibers = some t' ∧
      t'.fibers.selected = 0 :=
  ⟨(C10_dump_fibers_first_index fixtureTab).1,
   (C10_dump_fibers_first_index fixtureTab).2 fixtureFibers (by decide)⟩

end Panopticon
